import Mathlib

/-!
Verification of the `ts-shelf` HTTP connector (`src/Connector/Connector.ts`).

The connector is a single class holding one mutable field `host`.  Each
request method builds a URL from the host, a prefix segment and a path,
issues one transport (`fetch`) call, maps the response through a
`.then` handler, and classifies any rejection through an identical
`.catch` handler.  We embed the class shallowly: the mutable host
becomes an explicit `ConnectorClass` record threaded through each
operation, a transport outcome becomes a value of `FetchOutcome`, and a
settled promise becomes `Except JsError JsValue`.
-/

namespace TsShelf

/-- The parsed-JSON values produced by `response.json()`.  The connector
never inspects them, so they are kept opaque behind a single field. -/
structure JsonVal where
  raw : String
  deriving DecidableEq, Repr

/-- The binary blobs produced by `response.blob()`.  Opaque to the
connector, like `JsonVal`. -/
structure BlobVal where
  raw : String
  deriving DecidableEq, Repr

/-- The JavaScript error values that can flow through the connector's
promise chains.

* `synError` — a `SyntaxError`, as produced by a failing JSON parse.
* `httpError` — Modelled from the spec: the `HttpError` class imported
  from `src/errors` (not present under `src/`); per the spec it carries
  the numeric status and the server-supplied status text verbatim.
* `networkError` — Modelled from the spec: the `NetworkError` class
  imported from `src/errors`; per the spec it carries a transport-level
  message.
* `genericError` — a plain `Error(message)`. -/
inductive JsError where
  | synError (msg : String)
  | httpError (status : Nat) (statusText : String)
  | networkError (msg : String)
  | genericError (msg : String)
  deriving DecidableEq, Repr

/-- The `.message` property of a JavaScript error value.  For the
spec-modelled `HttpError` we take the status text as the message; the
connector never reads the message of an `HttpError`. -/
def JsError.message : JsError → String
  | .synError m => m
  | .httpError _ t => t
  | .networkError m => m
  | .genericError m => m

/-- `err instanceof SyntaxError`. -/
def JsError.isSynError : JsError → Bool
  | .synError _ => true
  | _ => false

/-- `err instanceof HttpError`. -/
def JsError.isHttpError : JsError → Bool
  | .httpError _ _ => true
  | _ => false

instance exceptDecEq {ε α : Type} [DecidableEq ε] [DecidableEq α] :
    DecidableEq (Except ε α) := fun x y =>
  match x, y with
  | .ok a, .ok b =>
    if h : a = b then .isTrue (congrArg Except.ok h)
    else .isFalse (fun hh => h (Except.ok.inj hh))
  | .error a, .error b =>
    if h : a = b then .isTrue (congrArg Except.error h)
    else .isFalse (fun hh => h (Except.error.inj hh))
  | .ok _, .error _ => .isFalse (fun hh => Except.noConfusion hh)
  | .error _, .ok _ => .isFalse (fun hh => Except.noConfusion hh)

/-- A transport `Response`: the fields the connector reads (`ok`,
`status`, `statusText`) together with the outcome each body-extraction
promise (`json()`, `text()`, `blob()`) would settle with if invoked. -/
structure Response where
  ok : Bool
  status : Nat
  statusText : String
  jsonBody : Except JsError JsonVal
  textBody : Except JsError String
  blobBody : Except JsError BlobVal
  deriving DecidableEq, Repr

/-- Whether a body-extraction outcome is a rejection with a
`SyntaxError`. -/
def bodySynFails {α : Type} : Except JsError α → Bool
  | .error e => e.isSynError
  | .ok _ => false

/-- The outcome of the transport-level `fetch(url, config)` call:
either it resolves with a `Response` or it rejects with an error. -/
inductive FetchOutcome where
  | resolved (r : Response)
  | rejected (e : JsError)
  deriving DecidableEq, Repr

/-- An abstract transport: what `fetch` settles with for a given URL. -/
abbrev Transport : Type := String → FetchOutcome

/-- The values a connector method can resolve with: a JSON-parsed body,
a raw text body, a boolean (for `headApi`), or a blob. -/
inductive JsValue where
  | json (j : JsonVal)
  | text (s : String)
  | bool (b : Bool)
  | blob (b : BlobVal)
  deriving DecidableEq, Repr

/-- The `.catch` handler shared verbatim by every request method:
a `SyntaxError` becomes the generic `Error('fetchApi: bad JSON')`, an
`HttpError` is rethrown, and anything else is wrapped in
`NetworkError(err.message)`. -/
def catchHandler (e : JsError) : JsError :=
  if e.isSynError then .genericError "fetchApi: bad JSON"
  else if e.isHttpError then e
  else .networkError e.message

/-- The URL-construction line shared by every request method:
`` `//${this.host}/${prefix ? `${prefix}/` : ''}${path}` `` — the
prefix segment is present exactly when the prefix string is truthy
(non-empty). -/
def mkUrl (host pfx path : String) : String :=
  "//" ++ host ++ "/" ++ (if pfx = "" then "" else pfx ++ "/") ++ path

/-- The default value of each method's `prefix` parameter. -/
def defaultPfx : String := "api"

/-- The connector's state: its one mutable field `host`. -/
structure ConnectorClass where
  host : String
  deriving DecidableEq, Repr

/-- The constructor: `this.host = window.location.host`. -/
def mkConnector (windowHost : String) : ConnectorClass :=
  { host := windowHost }

/-- `setHost(host?)`: `this.host = host || window.location.host` —
a missing or empty (falsy) argument resets to the ambient host. -/
def setHost (c : ConnectorClass) (h : Option String) (windowHost : String) :
    ConnectorClass :=
  { c with
    host :=
      match h with
      | some s => if s = "" then windowHost else s
      | none => windowHost }

/-- Runs a method's promise chain `fetch(url, ...).then(step).catch(catchHandler)`
on a transport outcome: a transport rejection or a rejection raised by
the `.then` step is classified by the catch handler; a fulfilled step
resolves the chain. -/
def runChain (step : Response → Except JsError JsValue) :
    FetchOutcome → Except JsError JsValue
  | .rejected e => .error (catchHandler e)
  | .resolved r =>
    match step r with
    | .ok v => .ok v
    | .error e => .error (catchHandler e)

/-- The `.then` handler of `fetchApi`: non-ok status throws
`HttpError(status, statusText)`, otherwise the chain continues with
`response.json()`. -/
def fetchApiThen (r : Response) : Except JsError JsValue :=
  if !r.ok then .error (.httpError r.status r.statusText)
  else r.jsonBody.map .json

/-- The `.then` handler of `postApi`: non-ok throws `HttpError`; status
204 continues with `response.text()`; otherwise `response.json()`. -/
def postApiThen (r : Response) : Except JsError JsValue :=
  if !r.ok then .error (.httpError r.status r.statusText)
  else if r.status = 204 then r.textBody.map .text
  else r.jsonBody.map .json

/-- The `.then` handler of `patchApi` (textually identical to
`postApi`'s in the source). -/
def patchApiThen (r : Response) : Except JsError JsValue :=
  if !r.ok then .error (.httpError r.status r.statusText)
  else if r.status = 204 then r.textBody.map .text
  else r.jsonBody.map .json

/-- The `.then` handler of `deleteApi` (same shape as `fetchApi`'s). -/
def deleteApiThen (r : Response) : Except JsError JsValue :=
  if !r.ok then .error (.httpError r.status r.statusText)
  else r.jsonBody.map .json

/-- The `.then` handler of `getApi`: non-ok throws `HttpError`,
otherwise the chain continues with `response.text()`. -/
def getApiThen (r : Response) : Except JsError JsValue :=
  if !r.ok then .error (.httpError r.status r.statusText)
  else r.textBody.map .text

/-- The `.then` handler of `headApi`: resolves `true` for a non-ok
response and `false` for an ok one; it never throws. -/
def headApiThen (r : Response) : Except JsError JsValue :=
  if !r.ok then .ok (.bool true) else .ok (.bool false)

/-- The `.then` handler of `downloadApi`: non-ok throws `HttpError`,
otherwise the chain continues with `response.blob()`. -/
def downloadApiThen (r : Response) : Except JsError JsValue :=
  if !r.ok then .error (.httpError r.status r.statusText)
  else r.blobBody.map .blob

/-- `fetchApi(path, options, prefix)`: computes the URL from the host
at invocation time, issues the transport call on it and runs the
promise chain.  Returns the (unchanged) connector state, the URL used,
and the settled result. -/
def fetchApi (c : ConnectorClass) (path pfx : String) (tr : Transport) :
    ConnectorClass × String × Except JsError JsValue :=
  let url := mkUrl c.host pfx path
  (c, url, runChain fetchApiThen (tr url))

/-- `postApi(path, body, options, prefix)`.  The serialized body only
reaches the transport configuration, which the abstract `Transport`
already accounts for. -/
def postApi (c : ConnectorClass) (path : String) (_body : Option JsonVal)
    (pfx : String) (tr : Transport) :
    ConnectorClass × String × Except JsError JsValue :=
  let url := mkUrl c.host pfx path
  (c, url, runChain postApiThen (tr url))

/-- `patchApi(path, body, options, prefix)`. -/
def patchApi (c : ConnectorClass) (path : String) (_body : Option JsonVal)
    (pfx : String) (tr : Transport) :
    ConnectorClass × String × Except JsError JsValue :=
  let url := mkUrl c.host pfx path
  (c, url, runChain patchApiThen (tr url))

/-- `deleteApi(path, options, prefix)`. -/
def deleteApi (c : ConnectorClass) (path pfx : String) (tr : Transport) :
    ConnectorClass × String × Except JsError JsValue :=
  let url := mkUrl c.host pfx path
  (c, url, runChain deleteApiThen (tr url))

/-- `getApi(path, options, prefix)`. -/
def getApi (c : ConnectorClass) (path pfx : String) (tr : Transport) :
    ConnectorClass × String × Except JsError JsValue :=
  let url := mkUrl c.host pfx path
  (c, url, runChain getApiThen (tr url))

/-- `headApi(path, options, prefix)`. -/
def headApi (c : ConnectorClass) (path pfx : String) (tr : Transport) :
    ConnectorClass × String × Except JsError JsValue :=
  let url := mkUrl c.host pfx path
  (c, url, runChain headApiThen (tr url))

/-- `downloadApi(path, options, prefix)`. -/
def downloadApi (c : ConnectorClass) (path pfx : String) (tr : Transport) :
    ConnectorClass × String × Except JsError JsValue :=
  let url := mkUrl c.host pfx path
  (c, url, runChain downloadApiThen (tr url))

/-- `openSocketConnection(io, messager)`: obtains a connection handle
via `io.connect(this.host)` and passes it to `messager`. -/
def openSocketConnection {α β : Type} (c : ConnectorClass)
    (connectFn : String → α) (messager : α → β) : ConnectorClass × β :=
  (c, messager (connectFn c.host))

/-- `initConnect(host?)`: delegates to `Connector.setHost(host)`. -/
def initConnect (c : ConnectorClass) (h : Option String)
    (windowHost : String) : ConnectorClass :=
  setHost c h windowHost

/-! Concrete fixtures used to instantiate the theorems below. -/

/-- A failed response; its body fields are deliberately populated so
that consulting any of them would be observable. -/
def resp404 : Response :=
  { ok := false, status := 404, statusText := "Not Found",
    jsonBody := .error (.synError "unexpected token"),
    textBody := .ok "ignored", blobBody := .ok ⟨"ignored"⟩ }

/-- An ordinary successful response with all body extractions
succeeding. -/
def respOkJson : Response :=
  { ok := true, status := 200, statusText := "OK",
    jsonBody := .ok ⟨"parsed"⟩,
    textBody := .ok "raw text", blobBody := .ok ⟨"bytes"⟩ }

/-- A successful 204 response: `text()` succeeds while `json()` would
reject with a syntax error (a 204 has no body to parse). -/
def resp204 : Response :=
  { ok := true, status := 204, statusText := "No Content",
    jsonBody := .error (.synError "unexpected end of input"),
    textBody := .ok "", blobBody := .ok ⟨""⟩ }

/-- A successful response whose `json()` rejects with a syntax error. -/
def respBadJson : Response :=
  { ok := true, status := 200, statusText := "OK",
    jsonBody := .error (.synError "unexpected token"),
    textBody := .ok "not json", blobBody := .ok ⟨"bytes"⟩ }

/-! The claims. -/

/-- Claim C1: for every response whose status is not in the success
range (`ok` is false), every body-returning method rejects with
`HttpError` carrying that response's status and status text.  The
response's body fields are universally quantified and do not appear in
the conclusion, so the result is independent of them: body extraction
is never consulted — the status check happens before body parsing. -/
theorem c1_nonOk_rejects_httpError (c : ConnectorClass) (path pfx : String)
    (bd : Option JsonVal) (r : Response) (h : r.ok = false) :
    (fetchApi c path pfx (fun _ => .resolved r)).2.2
        = .error (.httpError r.status r.statusText)
    ∧ (postApi c path bd pfx (fun _ => .resolved r)).2.2
        = .error (.httpError r.status r.statusText)
    ∧ (patchApi c path bd pfx (fun _ => .resolved r)).2.2
        = .error (.httpError r.status r.statusText)
    ∧ (deleteApi c path pfx (fun _ => .resolved r)).2.2
        = .error (.httpError r.status r.statusText)
    ∧ (getApi c path pfx (fun _ => .resolved r)).2.2
        = .error (.httpError r.status r.statusText)
    ∧ (downloadApi c path pfx (fun _ => .resolved r)).2.2
        = .error (.httpError r.status r.statusText) := by
  simp [fetchApi, postApi, patchApi, deleteApi, getApi, downloadApi,
    runChain, fetchApiThen, postApiThen, patchApiThen, deleteApiThen,
    getApiThen, downloadApiThen, catchHandler, JsError.isSynError,
    JsError.isHttpError, h]

/-- Witness for C1: a 404 response whose body extractors are populated
(`json()` would even reject with a syntax error) still yields
`HttpError(404, "Not Found")` from every body-returning method. -/
theorem c1_witness :
    resp404.ok = false
    ∧ ((fetchApi ⟨"example.com"⟩ "items" "api"
          (fun _ => .resolved resp404)).2.2
        = .error (.httpError 404 "Not Found")
    ∧ (postApi ⟨"example.com"⟩ "items" none "api"
          (fun _ => .resolved resp404)).2.2
        = .error (.httpError 404 "Not Found")
    ∧ (patchApi ⟨"example.com"⟩ "items" none "api"
          (fun _ => .resolved resp404)).2.2
        = .error (.httpError 404 "Not Found")
    ∧ (deleteApi ⟨"example.com"⟩ "items" "api"
          (fun _ => .resolved resp404)).2.2
        = .error (.httpError 404 "Not Found")
    ∧ (getApi ⟨"example.com"⟩ "items" "api"
          (fun _ => .resolved resp404)).2.2
        = .error (.httpError 404 "Not Found")
    ∧ (downloadApi ⟨"example.com"⟩ "items" "api"
          (fun _ => .resolved resp404)).2.2
        = .error (.httpError 404 "Not Found")) :=
  ⟨rfl, c1_nonOk_rejects_httpError ⟨"example.com"⟩ "items" "api" none
    resp404 rfl⟩

/-- Claim C2: every request method builds its URL as
`//{host}/{pfx}/{path}` when the prefix is non-empty and
`//{host}/{path}` when it is empty, by plain string concatenation (so
no escaping or encoding of `path`), and the default prefix value is
`"api"`. -/
theorem c2_url_construction (c : ConnectorClass) (path pfx : String)
    (bd : Option JsonVal) (tr : Transport) :
    (fetchApi c path pfx tr).2.1
        = (if pfx = "" then "//" ++ c.host ++ "/" ++ path
           else "//" ++ c.host ++ "/" ++ pfx ++ "/" ++ path)
    ∧ (postApi c path bd pfx tr).2.1
        = (if pfx = "" then "//" ++ c.host ++ "/" ++ path
           else "//" ++ c.host ++ "/" ++ pfx ++ "/" ++ path)
    ∧ (patchApi c path bd pfx tr).2.1
        = (if pfx = "" then "//" ++ c.host ++ "/" ++ path
           else "//" ++ c.host ++ "/" ++ pfx ++ "/" ++ path)
    ∧ (deleteApi c path pfx tr).2.1
        = (if pfx = "" then "//" ++ c.host ++ "/" ++ path
           else "//" ++ c.host ++ "/" ++ pfx ++ "/" ++ path)
    ∧ (getApi c path pfx tr).2.1
        = (if pfx = "" then "//" ++ c.host ++ "/" ++ path
           else "//" ++ c.host ++ "/" ++ pfx ++ "/" ++ path)
    ∧ (headApi c path pfx tr).2.1
        = (if pfx = "" then "//" ++ c.host ++ "/" ++ path
           else "//" ++ c.host ++ "/" ++ pfx ++ "/" ++ path)
    ∧ (downloadApi c path pfx tr).2.1
        = (if pfx = "" then "//" ++ c.host ++ "/" ++ path
           else "//" ++ c.host ++ "/" ++ pfx ++ "/" ++ path)
    ∧ defaultPfx = "api" := by
  have hu : mkUrl c.host pfx path
      = (if pfx = "" then "//" ++ c.host ++ "/" ++ path
         else "//" ++ c.host ++ "/" ++ pfx ++ "/" ++ path) := by
    by_cases hp : pfx = "" <;>
      simp [mkUrl, hp, String.append_assoc, String.append_empty]
  exact ⟨hu, hu, hu, hu, hu, hu, hu, rfl⟩

/-- Claim C5: `headApi` resolves with `false` when the response's `ok`
is true and with `true` when `ok` is false — i.e. it resolves with the
negation of `ok` and never rejects on a non-ok status; only a
transport-level failure makes it reject (the result is then an
error). -/
theorem c5_headApi_boolean (c : ConnectorClass) (path pfx : String)
    (r : Response) (e : JsError) :
    (headApi c path pfx (fun _ => .resolved r)).2.2 = .ok (.bool (!r.ok))
    ∧ (∃ e', (headApi c path pfx (fun _ => .rejected e)).2.2
        = .error e') := by
  constructor
  · cases hok : r.ok <;> simp [headApi, runChain, headApiThen, hok]
  · exact ⟨catchHandler e, rfl⟩

/-- Claim C8: every request method computes its URL from the host read
at invocation time.  A request issued against state `c` uses `c.host`
even though `setHost` runs afterwards, and only a request issued after
the mutation uses the updated host. -/
theorem c8_host_read_at_invocation (c : ConnectorClass)
    (newHost windowHost path pfx : String) (bd : Option JsonVal)
    (tr : Transport) :
    ((fetchApi c path pfx tr).2.1 = mkUrl c.host pfx path
    ∧ (postApi c path bd pfx tr).2.1 = mkUrl c.host pfx path
    ∧ (patchApi c path bd pfx tr).2.1 = mkUrl c.host pfx path
    ∧ (deleteApi c path pfx tr).2.1 = mkUrl c.host pfx path
    ∧ (getApi c path pfx tr).2.1 = mkUrl c.host pfx path
    ∧ (headApi c path pfx tr).2.1 = mkUrl c.host pfx path
    ∧ (downloadApi c path pfx tr).2.1 = mkUrl c.host pfx path)
    ∧ ((fetchApi (setHost c (some newHost) windowHost) path pfx tr).2.1
        = mkUrl (setHost c (some newHost) windowHost).host pfx path
    ∧ (postApi (setHost c (some newHost) windowHost) path bd pfx tr).2.1
        = mkUrl (setHost c (some newHost) windowHost).host pfx path
    ∧ (patchApi (setHost c (some newHost) windowHost) path bd pfx tr).2.1
        = mkUrl (setHost c (some newHost) windowHost).host pfx path
    ∧ (deleteApi (setHost c (some newHost) windowHost) path pfx tr).2.1
        = mkUrl (setHost c (some newHost) windowHost).host pfx path
    ∧ (getApi (setHost c (some newHost) windowHost) path pfx tr).2.1
        = mkUrl (setHost c (some newHost) windowHost).host pfx path
    ∧ (headApi (setHost c (some newHost) windowHost) path pfx tr).2.1
        = mkUrl (setHost c (some newHost) windowHost).host pfx path
    ∧ (downloadApi (setHost c (some newHost) windowHost) path pfx tr).2.1
        = mkUrl (setHost c (some newHost) windowHost).host pfx path) :=
  ⟨⟨rfl, rfl, rfl, rfl, rfl, rfl, rfl⟩,
   ⟨rfl, rfl, rfl, rfl, rfl, rfl, rfl⟩⟩

/-- Claim C10: no request method nor `openSocketConnection` modifies
the connector's `host` field — the state after each call equals the
state before it; only `setHost` (to which `initConnect` delegates)
writes `host`. -/
theorem c10_host_frame {α β : Type} (c : ConnectorClass)
    (path pfx : String) (bd : Option JsonVal) (tr : Transport)
    (connectFn : String → α) (messager : α → β) :
    (fetchApi c path pfx tr).1 = c
    ∧ (postApi c path bd pfx tr).1 = c
    ∧ (patchApi c path bd pfx tr).1 = c
    ∧ (deleteApi c path pfx tr).1 = c
    ∧ (getApi c path pfx tr).1 = c
    ∧ (headApi c path pfx tr).1 = c
    ∧ (downloadApi c path pfx tr).1 = c
    ∧ (openSocketConnection c connectFn messager).1 = c :=
  ⟨rfl, rfl, rfl, rfl, rfl, rfl, rfl, rfl⟩

/-- Claim C3 counterexample: the claim quantifies over every `ok`
response whose `json()` rejects with a syntax error, but at status 204
`postApi` never invokes `json()` — it reads `text()` and resolves.
`resp204` satisfies the claim's hypotheses (`ok` is true, `json()`
rejects with a syntax error), yet `postApi` resolves with the raw text
instead of rejecting with the bad-JSON error. -/
theorem c3_counterexample :
    resp204.ok = true
    ∧ resp204.jsonBody = .error (.synError "unexpected end of input")
    ∧ (postApi ⟨"example.com"⟩ "items" none "api"
          (fun _ => .resolved resp204)).2.2 = .ok (.text "")
    ∧ (postApi ⟨"example.com"⟩ "items" none "api"
          (fun _ => .resolved resp204)).2.2
        ≠ .error (.genericError "fetchApi: bad JSON") := by
  refine ⟨rfl, rfl, rfl, ?_⟩
  decide

/-- Claim C3 (amended): for every response with `ok` true whose
`json()` rejects with a syntax error, `fetchApi` and `deleteApi`
reject with exactly the message `"fetchApi: bad JSON"`; `postApi` and
`patchApi` do so as well provided the status is not 204 — at status
204 they read the body as text and `json()` is never invoked. -/
theorem c3_amended_badJson (c : ConnectorClass) (path pfx m : String)
    (bd : Option JsonVal) (r : Response)
    (hok : r.ok = true) (hj : r.jsonBody = .error (.synError m)) :
    (fetchApi c path pfx (fun _ => .resolved r)).2.2
        = .error (.genericError "fetchApi: bad JSON")
    ∧ (deleteApi c path pfx (fun _ => .resolved r)).2.2
        = .error (.genericError "fetchApi: bad JSON")
    ∧ (r.status ≠ 204 →
        (postApi c path bd pfx (fun _ => .resolved r)).2.2
            = .error (.genericError "fetchApi: bad JSON")
        ∧ (patchApi c path bd pfx (fun _ => .resolved r)).2.2
            = .error (.genericError "fetchApi: bad JSON")) := by
  refine ⟨?_, ?_, fun h204 => ?_⟩
  · simp [fetchApi, runChain, fetchApiThen, catchHandler,
      JsError.isSynError, Except.map, hok, hj]
  · simp [deleteApi, runChain, deleteApiThen, catchHandler,
      JsError.isSynError, Except.map, hok, hj]
  · constructor <;>
      simp [postApi, patchApi, runChain, postApiThen, patchApiThen,
        catchHandler, JsError.isSynError, Except.map, hok, hj, h204]

/-- Witness for C3 (amended): a 200 response whose `json()` rejects
with a syntax error makes all four JSON-mapping methods reject with
the bad-JSON error. -/
theorem c3_amended_witness :
    respBadJson.ok = true
    ∧ respBadJson.jsonBody = .error (.synError "unexpected token")
    ∧ (fetchApi ⟨"example.com"⟩ "items" "api"
          (fun _ => .resolved respBadJson)).2.2
        = .error (.genericError "fetchApi: bad JSON")
    ∧ (deleteApi ⟨"example.com"⟩ "items" "api"
          (fun _ => .resolved respBadJson)).2.2
        = .error (.genericError "fetchApi: bad JSON")
    ∧ (postApi ⟨"example.com"⟩ "items" none "api"
          (fun _ => .resolved respBadJson)).2.2
        = .error (.genericError "fetchApi: bad JSON")
    ∧ (patchApi ⟨"example.com"⟩ "items" none "api"
          (fun _ => .resolved respBadJson)).2.2
        = .error (.genericError "fetchApi: bad JSON") :=
  ⟨rfl, rfl,
    (c3_amended_badJson ⟨"example.com"⟩ "items" "api" "unexpected token"
      none respBadJson rfl rfl).1,
    (c3_amended_badJson ⟨"example.com"⟩ "items" "api" "unexpected token"
      none respBadJson rfl rfl).2.1,
    ((c3_amended_badJson ⟨"example.com"⟩ "items" "api" "unexpected token"
      none respBadJson rfl rfl).2.2 (by decide)).1,
    ((c3_amended_badJson ⟨"example.com"⟩ "items" "api" "unexpected token"
      none respBadJson rfl rfl).2.2 (by decide)).2⟩

/-- Claim C4: if the transport call itself rejects with an error that
is neither a `SyntaxError` nor an `HttpError`, every request method
rejects with `NetworkError` carrying the underlying error's message
verbatim. -/
theorem c4_networkError_wraps (c : ConnectorClass) (path pfx : String)
    (bd : Option JsonVal) (e : JsError)
    (hs : e.isSynError = false) (hh : e.isHttpError = false) :
    (fetchApi c path pfx (fun _ => .rejected e)).2.2
        = .error (.networkError e.message)
    ∧ (postApi c path bd pfx (fun _ => .rejected e)).2.2
        = .error (.networkError e.message)
    ∧ (patchApi c path bd pfx (fun _ => .rejected e)).2.2
        = .error (.networkError e.message)
    ∧ (deleteApi c path pfx (fun _ => .rejected e)).2.2
        = .error (.networkError e.message)
    ∧ (getApi c path pfx (fun _ => .rejected e)).2.2
        = .error (.networkError e.message)
    ∧ (headApi c path pfx (fun _ => .rejected e)).2.2
        = .error (.networkError e.message)
    ∧ (downloadApi c path pfx (fun _ => .rejected e)).2.2
        = .error (.networkError e.message) := by
  simp [fetchApi, postApi, patchApi, deleteApi, getApi, headApi,
    downloadApi, runChain, catchHandler, hs, hh]

/-- Witness for C4: a transport rejection with `Error("boom")` makes
every method reject with `NetworkError("boom")`. -/
theorem c4_witness :
    (JsError.genericError "boom").isSynError = false
    ∧ (JsError.genericError "boom").isHttpError = false
    ∧ ((fetchApi ⟨"example.com"⟩ "items" "api"
          (fun _ => .rejected (.genericError "boom"))).2.2
        = .error (.networkError "boom")
    ∧ (postApi ⟨"example.com"⟩ "items" none "api"
          (fun _ => .rejected (.genericError "boom"))).2.2
        = .error (.networkError "boom")
    ∧ (patchApi ⟨"example.com"⟩ "items" none "api"
          (fun _ => .rejected (.genericError "boom"))).2.2
        = .error (.networkError "boom")
    ∧ (deleteApi ⟨"example.com"⟩ "items" "api"
          (fun _ => .rejected (.genericError "boom"))).2.2
        = .error (.networkError "boom")
    ∧ (getApi ⟨"example.com"⟩ "items" "api"
          (fun _ => .rejected (.genericError "boom"))).2.2
        = .error (.networkError "boom")
    ∧ (headApi ⟨"example.com"⟩ "items" "api"
          (fun _ => .rejected (.genericError "boom"))).2.2
        = .error (.networkError "boom")
    ∧ (downloadApi ⟨"example.com"⟩ "items" "api"
          (fun _ => .rejected (.genericError "boom"))).2.2
        = .error (.networkError "boom")) :=
  ⟨rfl, rfl, c4_networkError_wraps ⟨"example.com"⟩ "items" "api" none
    (.genericError "boom") rfl rfl⟩

/-- Claim C6: for a successful response with status exactly 204,
`postApi` and `patchApi` resolve with the raw text of the body; for
any other successful status they resolve with the JSON-parsed body. -/
theorem c6_status204_text (c : ConnectorClass) (path pfx s : String)
    (bd : Option JsonVal) (r : Response) (j : JsonVal)
    (hok : r.ok = true) :
    (r.status = 204 → r.textBody = .ok s →
      (postApi c path bd pfx (fun _ => .resolved r)).2.2 = .ok (.text s)
      ∧ (patchApi c path bd pfx (fun _ => .resolved r)).2.2
          = .ok (.text s))
    ∧ (r.status ≠ 204 → r.jsonBody = .ok j →
      (postApi c path bd pfx (fun _ => .resolved r)).2.2 = .ok (.json j)
      ∧ (patchApi c path bd pfx (fun _ => .resolved r)).2.2
          = .ok (.json j)) := by
  constructor
  · intro h204 ht
    constructor <;>
      simp [postApi, patchApi, runChain, postApiThen, patchApiThen,
        Except.map, hok, h204, ht]
  · intro h204 hj
    constructor <;>
      simp [postApi, patchApi, runChain, postApiThen, patchApiThen,
        Except.map, hok, h204, hj]

/-- Witness for C6: at status 204 `postApi`/`patchApi` resolve with the
raw (empty) text even though `json()` would reject; at status 200 they
resolve with the JSON-parsed value. -/
theorem c6_witness :
    ((postApi ⟨"example.com"⟩ "items" none "api"
          (fun _ => .resolved resp204)).2.2 = .ok (.text "")
    ∧ (patchApi ⟨"example.com"⟩ "items" none "api"
          (fun _ => .resolved resp204)).2.2 = .ok (.text ""))
    ∧ ((postApi ⟨"example.com"⟩ "items" none "api"
          (fun _ => .resolved respOkJson)).2.2 = .ok (.json ⟨"parsed"⟩)
    ∧ (patchApi ⟨"example.com"⟩ "items" none "api"
          (fun _ => .resolved respOkJson)).2.2 = .ok (.json ⟨"parsed"⟩)) :=
  ⟨(c6_status204_text ⟨"example.com"⟩ "items" "api" "" none resp204
      ⟨"unused"⟩ rfl).1 rfl rfl,
   (c6_status204_text ⟨"example.com"⟩ "items" "api" "unused" none
      respOkJson ⟨"parsed"⟩ rfl).2 (by decide) rfl⟩

/-- Claim C7: `setHost` assigns a non-empty argument to `host`,
resets `host` to the ambient `window.location.host` when the argument
is absent or empty, and every request issued after the call builds its
URL from the new host. -/
theorem c7_setHost (c : ConnectorClass) (h windowHost path pfx : String)
    (bd : Option JsonVal) (tr : Transport) (hne : h ≠ "") :
    (setHost c (some h) windowHost).host = h
    ∧ (setHost c none windowHost).host = windowHost
    ∧ (setHost c (some "") windowHost).host = windowHost
    ∧ (fetchApi (setHost c (some h) windowHost) path pfx tr).2.1
        = mkUrl h pfx path
    ∧ (postApi (setHost c (some h) windowHost) path bd pfx tr).2.1
        = mkUrl h pfx path
    ∧ (patchApi (setHost c (some h) windowHost) path bd pfx tr).2.1
        = mkUrl h pfx path
    ∧ (deleteApi (setHost c (some h) windowHost) path pfx tr).2.1
        = mkUrl h pfx path
    ∧ (getApi (setHost c (some h) windowHost) path pfx tr).2.1
        = mkUrl h pfx path
    ∧ (headApi (setHost c (some h) windowHost) path pfx tr).2.1
        = mkUrl h pfx path
    ∧ (downloadApi (setHost c (some h) windowHost) path pfx tr).2.1
        = mkUrl h pfx path := by
  simp [setHost, fetchApi, postApi, patchApi, deleteApi, getApi,
    headApi, downloadApi, hne]

/-- Witness for C7 at host `"backend.example"`, ambient host
`"win.example"`, path `"items"`, default prefix. -/
theorem c7_witness :
    ("backend.example" : String) ≠ ""
    ∧ ((setHost ⟨"old.example"⟩ (some "backend.example")
          "win.example").host = "backend.example"
    ∧ (setHost ⟨"old.example"⟩ none "win.example").host = "win.example"
    ∧ (setHost ⟨"old.example"⟩ (some "") "win.example").host
        = "win.example"
    ∧ (fetchApi (setHost ⟨"old.example"⟩ (some "backend.example")
          "win.example") "items" "api"
          (fun _ => .rejected (.genericError "x"))).2.1
        = mkUrl "backend.example" "api" "items"
    ∧ (postApi (setHost ⟨"old.example"⟩ (some "backend.example")
          "win.example") "items" none "api"
          (fun _ => .rejected (.genericError "x"))).2.1
        = mkUrl "backend.example" "api" "items"
    ∧ (patchApi (setHost ⟨"old.example"⟩ (some "backend.example")
          "win.example") "items" none "api"
          (fun _ => .rejected (.genericError "x"))).2.1
        = mkUrl "backend.example" "api" "items"
    ∧ (deleteApi (setHost ⟨"old.example"⟩ (some "backend.example")
          "win.example") "items" "api"
          (fun _ => .rejected (.genericError "x"))).2.1
        = mkUrl "backend.example" "api" "items"
    ∧ (getApi (setHost ⟨"old.example"⟩ (some "backend.example")
          "win.example") "items" "api"
          (fun _ => .rejected (.genericError "x"))).2.1
        = mkUrl "backend.example" "api" "items"
    ∧ (headApi (setHost ⟨"old.example"⟩ (some "backend.example")
          "win.example") "items" "api"
          (fun _ => .rejected (.genericError "x"))).2.1
        = mkUrl "backend.example" "api" "items"
    ∧ (downloadApi (setHost ⟨"old.example"⟩ (some "backend.example")
          "win.example") "items" "api"
          (fun _ => .rejected (.genericError "x"))).2.1
        = mkUrl "backend.example" "api" "items") :=
  ⟨by decide, c7_setHost ⟨"old.example"⟩ "backend.example" "win.example"
    "items" "api" none (fun _ => .rejected (.genericError "x"))
    (by decide)⟩

/-- Claim C9 counterexample: the claim says `getApi`, `headApi` and
`downloadApi` never reject with the generic bad-JSON error for any
transport outcome, but the catch handler is shared verbatim by every
method: a transport outcome that rejects with a `SyntaxError` makes
all three reject with exactly `"fetchApi: bad JSON"`. -/
theorem c9_counterexample :
    (getApi ⟨"example.com"⟩ "items" "api"
        (fun _ => .rejected (.synError "bad token"))).2.2
      = .error (.genericError "fetchApi: bad JSON")
    ∧ (headApi ⟨"example.com"⟩ "items" "api"
        (fun _ => .rejected (.synError "bad token"))).2.2
      = .error (.genericError "fetchApi: bad JSON")
    ∧ (downloadApi ⟨"example.com"⟩ "items" "api"
        (fun _ => .rejected (.synError "bad token"))).2.2
      = .error (.genericError "fetchApi: bad JSON") :=
  ⟨rfl, rfl, rfl⟩

/-- Claim C9 (amended): the shared catch handler produces the generic
bad-JSON error exactly from a `SyntaxError`, whatever the method.  So
`getApi`, `headApi` and `downloadApi` — whose success mappings are
text, boolean and blob and hence never invoke JSON parsing — never
reject with the bad-JSON error as long as neither the transport
rejection nor their own body extraction (`text()` for `getApi`,
`blob()` for `downloadApi`) fails with a syntax error. -/
theorem c9_amended_no_badJson (c : ConnectorClass) (path pfx : String)
    (r : Response) (e : JsError)
    (he : e.isSynError = false)
    (ht : bodySynFails r.textBody = false)
    (hb : bodySynFails r.blobBody = false) :
    (getApi c path pfx (fun _ => .resolved r)).2.2
        ≠ .error (.genericError "fetchApi: bad JSON")
    ∧ (getApi c path pfx (fun _ => .rejected e)).2.2
        ≠ .error (.genericError "fetchApi: bad JSON")
    ∧ (headApi c path pfx (fun _ => .resolved r)).2.2
        ≠ .error (.genericError "fetchApi: bad JSON")
    ∧ (headApi c path pfx (fun _ => .rejected e)).2.2
        ≠ .error (.genericError "fetchApi: bad JSON")
    ∧ (downloadApi c path pfx (fun _ => .resolved r)).2.2
        ≠ .error (.genericError "fetchApi: bad JSON")
    ∧ (downloadApi c path pfx (fun _ => .rejected e)).2.2
        ≠ .error (.genericError "fetchApi: bad JSON") := by
  obtain ⟨ok, st, stx, jb, tb, bb⟩ := r
  simp only [bodySynFails] at ht hb
  refine ⟨?_, ?_, ?_, ?_, ?_, ?_⟩
  · cases tb with
    | ok s =>
      cases ok <;>
        simp [getApi, runChain, getApiThen, catchHandler,
          JsError.isSynError, JsError.isHttpError, JsError.message,
          Except.map]
    | error eT =>
      cases eT <;> cases ok <;>
        simp_all [getApi, runChain, getApiThen, catchHandler,
          JsError.isSynError, JsError.isHttpError, JsError.message,
          Except.map]
  · cases e <;>
      simp_all [getApi, runChain, catchHandler, JsError.isSynError,
        JsError.isHttpError, JsError.message]
  · cases ok <;> simp [headApi, runChain, headApiThen]
  · cases e <;>
      simp_all [headApi, runChain, catchHandler, JsError.isSynError,
        JsError.isHttpError, JsError.message]
  · cases bb with
    | ok b =>
      cases ok <;>
        simp [downloadApi, runChain, downloadApiThen, catchHandler,
          JsError.isSynError, JsError.isHttpError, JsError.message,
          Except.map]
    | error eB =>
      cases eB <;> cases ok <;>
        simp_all [downloadApi, runChain, downloadApiThen, catchHandler,
          JsError.isSynError, JsError.isHttpError, JsError.message,
          Except.map]
  · cases e <;>
      simp_all [downloadApi, runChain, catchHandler, JsError.isSynError,
        JsError.isHttpError, JsError.message]

/-- Witness for C9 (amended): with an ordinary successful response and
a transport rejection `Error("boom")`, none of `getApi`, `headApi`,
`downloadApi` rejects with the bad-JSON error. -/
theorem c9_amended_witness :
    (JsError.genericError "boom").isSynError = false
    ∧ bodySynFails respOkJson.textBody = false
    ∧ bodySynFails respOkJson.blobBody = false
    ∧ ((getApi ⟨"example.com"⟩ "items" "api"
          (fun _ => .resolved respOkJson)).2.2
        ≠ .error (.genericError "fetchApi: bad JSON")
    ∧ (getApi ⟨"example.com"⟩ "items" "api"
          (fun _ => .rejected (.genericError "boom"))).2.2
        ≠ .error (.genericError "fetchApi: bad JSON")
    ∧ (headApi ⟨"example.com"⟩ "items" "api"
          (fun _ => .resolved respOkJson)).2.2
        ≠ .error (.genericError "fetchApi: bad JSON")
    ∧ (headApi ⟨"example.com"⟩ "items" "api"
          (fun _ => .rejected (.genericError "boom"))).2.2
        ≠ .error (.genericError "fetchApi: bad JSON")
    ∧ (downloadApi ⟨"example.com"⟩ "items" "api"
          (fun _ => .resolved respOkJson)).2.2
        ≠ .error (.genericError "fetchApi: bad JSON")
    ∧ (downloadApi ⟨"example.com"⟩ "items" "api"
          (fun _ => .rejected (.genericError "boom"))).2.2
        ≠ .error (.genericError "fetchApi: bad JSON")) :=
  ⟨rfl, rfl, rfl, c9_amended_no_badJson ⟨"example.com"⟩ "items" "api"
    respOkJson (.genericError "boom") rfl rfl rfl⟩

end TsShelf
